import Mathlib

/-!
Verification of the h_translator translation service against its
natural-language specification.

The definitions below are a shallow embedding of the code in
`h_translator_service.pyw`.  Components of the engine that live in the
`core` package (`core/translator`, `core/file_handler`, `core/dictionary`)
are not part of the provided sources; where a claim depends on them they
are modelled from the specification and marked as such in their doc
comments.
-/

/-- The three supported languages of the tool. -/
inductive Lang
  | ko
  | ja
  | en
deriving DecidableEq, Repr

/-- Result set of the language detector: a language or the sentinel
`unknown` (valid only as a detected source, never as a target). -/
inductive DetectLang
  | ko
  | ja
  | en
  | unknown
deriving DecidableEq, Repr

/-- Hangul syllables and jamo code ranges. -/
def isHangulChar (c : Char) : Bool :=
  decide ((0xAC00 ≤ c.toNat ∧ c.toNat ≤ 0xD7A3) ∨ (0x1100 ≤ c.toNat ∧ c.toNat ≤ 0x11FF))

/-- Hiragana and katakana code ranges. -/
def isKanaChar (c : Char) : Bool :=
  decide (0x3040 ≤ c.toNat ∧ c.toNat ≤ 0x30FF)

/-- CJK unified ideograph code range. -/
def isKanjiChar (c : Char) : Bool :=
  decide (0x4E00 ≤ c.toNat ∧ c.toNat ≤ 0x9FFF)

/-- Basic Latin letters. -/
def isLatinChar (c : Char) : Bool :=
  decide ((0x41 ≤ c.toNat ∧ c.toNat ≤ 0x5A) ∨ (0x61 ≤ c.toNat ∧ c.toNat ≤ 0x7A))

/-- Modelled from the spec: the Language Detector
(`detect_source_language` in `core/file_handler`, which is not among the
provided sources).  Spec 4.1: count characters falling into Hangul,
kana/kanji and Latin ranges over the non-whitespace characters, classify
by the dominant range with a minimum-proportion threshold (here: strict
majority), return `unknown` when no range dominates, and bias toward the
presence of kana to classify Japanese. -/
def detect (text : String) : DetectLang :=
  let chars := text.toList.filter (fun c => !c.isWhitespace)
  let total := chars.length
  if total = 0 then .unknown
  else
    let hangul := (chars.filter isHangulChar).length
    let kana := (chars.filter isKanaChar).length
    let kanji := (chars.filter isKanjiChar).length
    let latin := (chars.filter isLatinChar).length
    if 0 < kana then .ja
    else if total < 2 * hangul then .ko
    else if total < 2 * kanji then .ja
    else if total < 2 * latin then .en
    else .unknown

/-- Python's `str.strip()`: remove leading and trailing whitespace. -/
def pyStrip (s : String) : String :=
  String.mk (((s.toList.dropWhile Char.isWhitespace).reverse.dropWhile
    Char.isWhitespace).reverse)

/-- Direction resolution of `ManualTranslationWindow.do_translate`
(`h_translator_service.pyw`, lines 416-432), as a function of the
detector's result and of the target-language radio selection: an
`unknown` source is coerced to `en`; a Korean source routes to `ja`; a
Japanese or English source routes to `ko`; otherwise the user's target
selection is used. -/
def resolveDirection (detected : DetectLang) (userTarget : Lang) : DetectLang × Lang :=
  let source := if detected = .unknown then DetectLang.en else detected
  let target :=
    match source with
    | .ko => Lang.ja
    | .ja => Lang.ko
    | .en => Lang.ko
    | .unknown => userTarget
  (source, target)

/-- Modelled from the spec: `resolveAuto` of the Direction Resolver
(`detect_and_set_direction` in `core/translator`, not among the provided
sources).  Spec 4.2: run the detector, coerce `unknown` to `en`, route
`ko → ja` and any non-Korean source to `ko`. -/
def resolveAuto (text : String) : DetectLang × Lang :=
  let d := detect text
  let source := if d = .unknown then DetectLang.en else d
  (source, if source = .ko then Lang.ja else Lang.ko)

/-- One provider configuration entry of the pool. -/
structure ProviderConfig where
  name : String
  model : String
  credential : String
  priority : Nat
deriving DecidableEq, Repr

/-- The provider pool: an ordered provider sequence and the active index
(`translator.providers` and `translator.current_provider_index`). -/
structure ProviderPool where
  providers : List ProviderConfig
  activeIndex : Nat
deriving DecidableEq, Repr

/-- Modelled from the spec: `advance()` of the Provider Pool
(`core/translator`, not among the provided sources).  Spec 4.4: move the
active index to the next provider without wrapping; return false and
leave the state unchanged when already at the last provider. -/
def ProviderPool.advance (p : ProviderPool) : Bool × ProviderPool :=
  if p.activeIndex + 1 < p.providers.length then
    (true, { p with activeIndex := p.activeIndex + 1 })
  else
    (false, p)

/-- Outcome of one engine translate call. -/
inductive TransResult
  | success (idx : Nat)
  | allProvidersFailed
  | emptyInput
deriving DecidableEq, Repr

/-- Modelled from the spec: the failover loop of the Translation Engine
(`core/translator`, not among the provided sources).  Spec 4.5 step 4:
attempt the active provider once; on failure `advance()` and retry, and
when `advance()` returns false fail the whole call.  `attempt i` tells
whether the provider at index `i` succeeds; the third component counts
provider attempts; `fuel` bounds the recursion by the number of
providers not yet tried. -/
def tryProviders (attempt : Nat → Bool) : Nat → ProviderPool → TransResult × ProviderPool × Nat
  | 0, p => (.allProvidersFailed, p, 0)
  | fuel + 1, p =>
    if attempt p.activeIndex then
      (.success p.activeIndex, p, 1)
    else
      match p.advance with
      | (true, p') =>
        let r := tryProviders attempt fuel p'
        (r.1, r.2.1, r.2.2 + 1)
      | (false, _) => (.allProvidersFailed, p, 1)

/-- Modelled from the spec: `translate` of the Translation Engine
(`translate_text` in `core/translator`, not among the provided sources).
Spec 4.5: reject empty/whitespace-only text before any provider is
contacted, then run the failover loop starting at the active provider. -/
def translateText (attempt : Nat → Bool) (text : String) (p : ProviderPool) :
    TransResult × ProviderPool × Nat :=
  if pyStrip text = "" then (.emptyInput, p, 0)
  else tryProviders attempt (p.providers.length - p.activeIndex) p

/-- The placeholder sentinel credentials rejected by `init_translator`
(`h_translator_service.pyw`, line 119). -/
def placeholderSentinels : List String :=
  ["YOUR_API_KEY_HERE", "YOUR_OPENAI_API_KEY", "YOUR_ANTHROPIC_API_KEY"]

/-- The credential scan of `init_translator`
(`h_translator_service.pyw`, lines 115-121): some provider has a
non-empty credential that is not a placeholder sentinel. -/
def hasValidKey (providers : List ProviderConfig) : Bool :=
  providers.any fun p => p.credential ≠ "" && !(placeholderSentinels.contains p.credential)

/-- Outcome of the credential stage of `init_translator`. -/
inductive InitResult
  | failedNoKey
  | constructed
deriving DecidableEq, Repr

/-- The credential stage of `init_translator`
(`h_translator_service.pyw`, lines 113-127): when no provider passes the
credential scan, initialization returns failure before the `Translator`
is constructed; otherwise construction proceeds. -/
def initTranslatorKeyStage (providers : List ProviderConfig) : InitResult :=
  if hasValidKey providers then .constructed else .failedNoKey

/-- State of the background service that the hotkey handler reads and
writes: the re-entrancy flag `is_translating`, whether `translator` was
initialized, the session direction held by the engine, and the engine's
provider pool. -/
structure SvcState where
  isTranslating : Bool
  hasTranslator : Bool
  direction : Option (DetectLang × Lang)
  pool : ProviderPool
deriving DecidableEq, Repr

/-- Externally observable effects of one hotkey invocation. -/
inductive Effect
  | sendCopyKey
  | clipboardRead
  | errorPopup
  | clipboardCopy
  | logSaved
  | resultPopup
deriving DecidableEq, Repr

/-- The body of the hotkey handler `do_translate`
(`h_translator_service.pyw`, lines 706-758), i.e. the `try` block run
once the re-entrancy guard has been taken: error popup when the
translator is missing, clipboard read (`clip = none` models a paste
exception), rejection of empty/whitespace-only text, then automatic
direction resolution followed by the engine call.  Returns the new
state, the emitted effects and the number of provider attempts. -/
def doTranslateBody (clip : Option String) (attempt : Nat → Bool) (s : SvcState) :
    SvcState × List Effect × Nat :=
  if !s.hasTranslator then (s, [.errorPopup], 0)
  else
    match clip with
    | none => (s, [.sendCopyKey, .clipboardRead, .errorPopup], 0)
    | some raw =>
      if pyStrip raw = "" then (s, [.sendCopyKey, .clipboardRead, .errorPopup], 0)
      else
        let text := pyStrip raw
        let s1 : SvcState := { s with direction := some (resolveAuto text) }
        let r := translateText attempt text s1.pool
        let s2 : SvcState := { s1 with pool := r.2.1 }
        match r.1 with
        | .success _ =>
          (s2, [.sendCopyKey, .clipboardRead, .clipboardCopy, .logSaved, .resultPopup], r.2.2)
        | _ => (s2, [.sendCopyKey, .clipboardRead, .errorPopup], r.2.2)

/-- The hotkey handler `do_translate`
(`h_translator_service.pyw`, lines 697-760): return immediately when
`is_translating` is already set, otherwise set the guard, run the body,
and reset the guard on every exit path (the `finally` block). -/
def doTranslate (clip : Option String) (attempt : Nat → Bool) (s : SvcState) :
    SvcState × List Effect × Nat :=
  if s.isTranslating then (s, [], 0)
  else
    let r := doTranslateBody clip attempt { s with isTranslating := true }
    ({ r.1 with isTranslating := false }, r.2.1, r.2.2)

/-- `ManualTranslationWindow.do_translate`
(`h_translator_service.pyw`, lines 406-449), the part up to and
including the engine call: strip the input, reject the empty input with
a status message, reject a missing translator, otherwise resolve the
direction from the detector and the target radio selection, store it,
and run the engine.  Returns the new state, the status message of a
rejection, and the number of provider attempts. -/
def manualDoTranslate (rawText : String) (userTarget : Lang) (attempt : Nat → Bool)
    (s : SvcState) : SvcState × Option String × Nat :=
  let text := pyStrip rawText
  if text = "" then (s, some "원문을 입력하세요", 0)
  else if !s.hasTranslator then (s, some "번역기가 초기화되지 않았습니다", 0)
  else
    let dir := resolveDirection (detect text) userTarget
    let s1 : SvcState := { s with direction := some dir }
    let r := translateText attempt text s1.pool
    ({ s1 with pool := r.2.1 }, none, r.2.2)

/-- `ManualTranslationWindow._get_model_list`
(`h_translator_service.pyw`, lines 357-362): the combobox labels,
one `name:model` label per provider. -/
def modelList (p : ProviderPool) : List String :=
  p.providers.map fun pc => pc.name ++ ":" ++ pc.model

/-- Modelled from the spec: `translator.current_model`
(`core/translator`, not among the provided sources); spec 3 and 6 call it
the current model label, derived from the active provider. -/
def currentModel (p : ProviderPool) : String :=
  match p.providers.get? p.activeIndex with
  | some pc => pc.name ++ ":" ++ pc.model
  | none => ""

/-- The saved-preference application in `ManualTranslationWindow.__init__`
(`h_translator_service.pyw`, lines 243-251): the default combobox index
is the position of the saved preferred label when present, else 0; the
active index is written only when the model list is non-empty, the
translator exists, and the default index is below the provider count. -/
def applyPreference (preferred : String) (hasTranslator : Bool) (p : ProviderPool) :
    ProviderPool :=
  let ml := modelList p
  let defaultIdx := if preferred ≠ "" ∧ preferred ∈ ml then ml.indexOf preferred else 0
  if ml ≠ [] ∧ hasTranslator = true ∧ defaultIdx < p.providers.length then
    { p with activeIndex := defaultIdx }
  else p

/-- `ManualTranslationWindow._on_model_change`
(`h_translator_service.pyw`, lines 364-372): write the combobox
selection to the active index only when the translator exists and the
selection (an `Int`, `-1` when nothing is selected) is in range. -/
def onModelChange (hasTranslator : Bool) (sel : Int) (p : ProviderPool) : ProviderPool :=
  if !hasTranslator then p
  else if 0 ≤ sel ∧ sel < (p.providers.length : Int) then
    { p with activeIndex := sel.toNat }
  else p

/-- Result of one model-confirm click: the pool afterwards, the status
label text it set, and the preference it saved. -/
structure ConfirmResult where
  pool : ProviderPool
  statusMsg : Option String
  savedPref : Option String
deriving DecidableEq, Repr

/-- `ManualTranslationWindow._on_model_confirm`
(`h_translator_service.pyw`, lines 374-385): when the translator exists
and the combobox selection is in range, write the active index, save the
current model label as the preference and report it in the status label;
in every other case return without doing anything. -/
def onModelConfirm (hasTranslator : Bool) (sel : Int) (p : ProviderPool) : ConfirmResult :=
  if !hasTranslator then ⟨p, none, none⟩
  else if 0 ≤ sel ∧ sel < (p.providers.length : Int) then
    let p' : ProviderPool := { p with activeIndex := sel.toNat }
    let m := currentModel p'
    ⟨p', some ("번역 모델 설정됨: " ++ m), some m⟩
  else ⟨p, none, none⟩

/-- Reason attached to a provider-switch notification. -/
inductive SwitchReason
  | userSelected
  | failover
deriving DecidableEq, Repr

/-- A provider-switch notification delivered to the `on_model_switch`
hook (`h_translator_service.pyw`, lines 129-130). -/
structure SwitchEvent where
  oldLabel : String
  newLabel : String
  reason : SwitchReason
deriving DecidableEq, Repr

/-- Modelled from the spec: the manual selection path of the Provider
Pool together with its switch notification (the emission logic lives in
`core/translator`, not among the provided sources).  Spec 3 and 4.4: a
`SwitchEvent` with the old and new model labels and reason
`user-selected` is emitted exactly once per manual change of the active
index, and only when the index actually changes; selecting an
out-of-range index leaves the pool unchanged (the shell's confirm
handler never forwards one). -/
def selectProvider (i : Nat) (p : ProviderPool) : ProviderPool × List SwitchEvent :=
  if i < p.providers.length then
    if i = p.activeIndex then (p, [])
    else
      ({ p with activeIndex := i },
       [⟨currentModel p, currentModel { p with activeIndex := i }, .userSelected⟩])
  else (p, [])

/-- A concrete two-provider pool used by concrete evaluations. -/
def demoPool : ProviderPool :=
  { providers :=
      [{ name := "openai", model := "gpt-4o-mini", credential := "sk-demo-a", priority := 0 },
       { name := "anthropic", model := "claude-3-5", credential := "sk-demo-b", priority := 1 }],
    activeIndex := 0 }

/-- A concrete service state used by concrete evaluations. -/
def demoState : SvcState :=
  { isTranslating := false, hasTranslator := true, direction := none, pool := demoPool }

/-- C1: for every input text, automatic direction resolution in
`ManualTranslationWindow.do_translate` routes as follows: after language
detection, an `unknown` source is coerced to `en`; a `ko` source yields
target `ja`; a `ja` or `en` source yields target `ko`. -/
theorem c1_auto_direction_routing (text : String) (t : Lang) :
    (detect text = .unknown → resolveDirection (detect text) t = (.en, .ko)) ∧
    (detect text = .ko → resolveDirection (detect text) t = (.ko, .ja)) ∧
    (detect text = .ja → resolveDirection (detect text) t = (.ja, .ko)) ∧
    (detect text = .en → resolveDirection (detect text) t = (.en, .ko)) := by
  refine ⟨?_, ?_, ?_, ?_⟩ <;> intro h <;> simp [resolveDirection, h]

/-- Witness for C1 at the concrete English input of spec section 8. -/
theorem c1_auto_direction_routing_witness :
    detect "hello there" = .en ∧
    resolveDirection (detect "hello there") Lang.ko = (.en, .ko) :=
  ⟨by decide, (c1_auto_direction_routing "hello there" Lang.ko).2.2.2 (by decide)⟩

/-- C10: in manual translation the resolved (source, target) direction
is independent of the user's target-language radio selection: the branch
reading the selection is unreachable because after coercing `unknown` to
`en` the source is always one of `ko`, `ja`, `en`. -/
theorem c10_direction_independent_of_selection (text : String) (t1 t2 : Lang) :
    resolveDirection (detect text) t1 = resolveDirection (detect text) t2 := by
  cases h : detect text <;> simp [resolveDirection]

/-- C8: round-trip direction property: a text obtained from a ko→ja
translation, hence detected as Japanese when fed back with automatic
direction detection, resolves the target back to `ko`. -/
theorem c8_round_trip_direction (resultText : String) (t : Lang)
    (h : detect resultText = .ja) :
    resolveDirection (detect resultText) t = (.ja, .ko) := by
  simp [resolveDirection, h]

/-- Witness for C8 at the concrete Japanese input of spec section 8. -/
theorem c8_round_trip_direction_witness :
    detect "こんにちは" = .ja ∧
    resolveDirection (detect "こんにちは") Lang.ja = (.ja, .ko) :=
  ⟨by decide, c8_round_trip_direction "こんにちは" Lang.ja (by decide)⟩

/-- The credential scan fails exactly when every provider credential is
empty or a placeholder sentinel. -/
theorem hasValidKey_eq_false_iff (ps : List ProviderConfig) :
    hasValidKey ps = false ↔
      ∀ p ∈ ps, p.credential = "" ∨ p.credential ∈ placeholderSentinels := by
  simp [hasValidKey, List.any_eq_false]
  constructor
  · intro h p hp
    by_cases hc : p.credential = ""
    · exact Or.inl hc
    · exact Or.inr (h p hp hc)
  · intro h p hp hc
    rcases h p hp with h1 | h1
    · exact absurd h1 hc
    · exact h1

/-- C4: `init_translator` fails at the credential stage (before the
engine is constructed) if and only if every configured provider's
credential is empty or equals one of the known placeholder sentinels;
with at least one valid credential, construction proceeds. -/
theorem c4_init_fails_iff_all_placeholder (ps : List ProviderConfig) :
    initTranslatorKeyStage ps = .failedNoKey ↔
      ∀ p ∈ ps, p.credential = "" ∨ p.credential ∈ placeholderSentinels := by
  rw [← hasValidKey_eq_false_iff]
  unfold initTranslatorKeyStage
  rcases h : hasValidKey ps <;> simp [h]

/-- The failover loop started below the provider count with matching
fuel either succeeds or exhausts the pool, makes at most `fuel` provider
attempts, and makes exactly `fuel` attempts when it exhausts the pool. -/
theorem tryProviders_spec (attempt : Nat → Bool) :
    ∀ (fuel : Nat) (p : ProviderPool),
      p.activeIndex < p.providers.length →
      p.providers.length - p.activeIndex = fuel →
      ((∃ i, (tryProviders attempt fuel p).1 = TransResult.success i) ∨
        (tryProviders attempt fuel p).1 = TransResult.allProvidersFailed) ∧
      (tryProviders attempt fuel p).2.2 ≤ fuel ∧
      ((tryProviders attempt fuel p).1 = TransResult.allProvidersFailed →
        (tryProviders attempt fuel p).2.2 = fuel) := by
  intro fuel
  induction fuel with
  | zero => intro p hlt hfuel; omega
  | succ n ih =>
    intro p hlt hfuel
    by_cases ha : attempt p.activeIndex
    · simp [tryProviders, ha]
    · by_cases hb : p.activeIndex + 1 < p.providers.length
      · have hadv : p.advance = (true, { p with activeIndex := p.activeIndex + 1 }) := by
          simp [ProviderPool.advance, hb]
        have hrec := ih { p with activeIndex := p.activeIndex + 1 } (by simpa using hb)
          (by simp; omega)
        simp only [tryProviders, ha, if_neg, Bool.false_eq_true, ite_false, hadv]
        refine ⟨hrec.1, ?_, ?_⟩
        · have := hrec.2.1; omega
        · intro hfail
          have := hrec.2.2 hfail
          omega
      · have hadv : p.advance = (false, p) := by
          simp [ProviderPool.advance, hb]
        have hn : n = 0 := by omega
        subst hn
        simp [tryProviders, ha, hadv]

/-- C2: for every pool freshly constructed with N ≥ 1 providers and
non-empty input, a single engine translate call either succeeds or fails
with `AllProvidersFailed`; it makes at most N provider attempts, exactly
N when it fails; and `advance()` at the last provider returns false and
leaves the active index unchanged (failover never wraps). -/
theorem c2_failover_exact_attempts (attempt : Nat → Bool) (text : String)
    (p : ProviderPool) (hN : 1 ≤ p.providers.length) (hstart : p.activeIndex = 0)
    (htext : pyStrip text ≠ "") :
    (((∃ i, (translateText attempt text p).1 = TransResult.success i) ∨
       (translateText attempt text p).1 = TransResult.allProvidersFailed) ∧
     (translateText attempt text p).2.2 ≤ p.providers.length ∧
     ((translateText attempt text p).1 = TransResult.allProvidersFailed →
       (translateText attempt text p).2.2 = p.providers.length)) ∧
    (∀ q : ProviderPool, q.activeIndex + 1 = q.providers.length →
      q.advance = (false, q)) := by
  constructor
  · have h := tryProviders_spec attempt (p.providers.length - p.activeIndex) p
      (by omega) rfl
    simpa [translateText, htext, hstart] using h
  · intro q hq
    simp [ProviderPool.advance, hq]

/-- Witness for C2: on the concrete two-provider pool with every
provider failing, the call fails with `AllProvidersFailed` after exactly
two attempts. -/
theorem c2_failover_exact_attempts_witness :
    1 ≤ demoPool.providers.length ∧ demoPool.activeIndex = 0 ∧ pyStrip "hi" ≠ "" ∧
    ((((∃ i, (translateText (fun _ => false) "hi" demoPool).1 = TransResult.success i) ∨
        (translateText (fun _ => false) "hi" demoPool).1 = TransResult.allProvidersFailed) ∧
      (translateText (fun _ => false) "hi" demoPool).2.2 ≤ demoPool.providers.length ∧
      ((translateText (fun _ => false) "hi" demoPool).1 = TransResult.allProvidersFailed →
        (translateText (fun _ => false) "hi" demoPool).2.2 = demoPool.providers.length)) ∧
     (∀ q : ProviderPool, q.activeIndex + 1 = q.providers.length →
       q.advance = (false, q))) :=
  ⟨by decide, rfl, by decide,
    c2_failover_exact_attempts (fun _ => false) "hi" demoPool (by decide) rfl (by decide)⟩

/-- C3: empty or whitespace-only input is rejected before any provider
is contacted and without mutating any state: in the hotkey handler the
state (direction, pool, active index) is returned unchanged with zero
provider attempts, and in the manual window the handler returns with a
status message, unchanged state and zero provider attempts. -/
theorem c3_empty_input_no_state_mutation (text : String) (attempt : Nat → Bool)
    (t : Lang) (s : SvcState) (htrim : pyStrip text = "")
    (hflag : s.isTranslating = false) (htr : s.hasTranslator = true) :
    (doTranslate (some text) attempt s).1 = s ∧
    (doTranslate (some text) attempt s).2.2 = 0 ∧
    (manualDoTranslate text t attempt s).1 = s ∧
    (manualDoTranslate text t attempt s).2.2 = 0 := by
  obtain ⟨flag, ht, dir, pool⟩ := s
  simp only at hflag htr
  subst hflag
  subst htr
  refine ⟨?_, ?_, ?_, ?_⟩ <;>
    simp [doTranslate, doTranslateBody, manualDoTranslate, htrim]

/-- Witness for C3 at a concrete whitespace-only input. -/
theorem c3_empty_input_no_state_mutation_witness :
    pyStrip "   " = "" ∧ demoState.isTranslating = false ∧
    demoState.hasTranslator = true ∧
    ((doTranslate (some "   ") (fun _ => false) demoState).1 = demoState ∧
     (doTranslate (some "   ") (fun _ => false) demoState).2.2 = 0 ∧
     (manualDoTranslate "   " Lang.ko (fun _ => false) demoState).1 = demoState ∧
     (manualDoTranslate "   " Lang.ko (fun _ => false) demoState).2.2 = 0) :=
  ⟨by decide, rfl, rfl,
    c3_empty_input_no_state_mutation "   " (fun _ => false) Lang.ko demoState
      (by decide) rfl rfl⟩

/-- C5: every operation that writes the active provider index (applying
the saved preference at window construction, combobox model change, and
model confirmation) preserves its validity as an index into the provider
sequence. -/
theorem c5_active_index_valid (preferred : String) (hasT : Bool) (sel : Int)
    (p : ProviderPool) (h : p.activeIndex < p.providers.length) :
    (applyPreference preferred hasT p).activeIndex <
      (applyPreference preferred hasT p).providers.length ∧
    (onModelChange hasT sel p).activeIndex <
      (onModelChange hasT sel p).providers.length ∧
    (onModelConfirm hasT sel p).pool.activeIndex <
      (onModelConfirm hasT sel p).pool.providers.length := by
  refine ⟨?_, ?_, ?_⟩
  · simp only [applyPreference]
    split <;>
    · split
      · next hcond => simpa using hcond.2.2
      · exact h
  · simp only [onModelChange]
    split
    · exact h
    · split
      · next hcond =>
        obtain ⟨h1, h2⟩ := hcond
        simp only
        omega
      · exact h
  · simp only [onModelConfirm]
    split
    · exact h
    · split
      · next hcond =>
        obtain ⟨h1, h2⟩ := hcond
        simp only
        omega
      · exact h

/-- Witness for C5 at the concrete two-provider pool. -/
theorem c5_active_index_valid_witness :
    demoPool.activeIndex < demoPool.providers.length ∧
    ((applyPreference "openai:gpt-4o-mini" true demoPool).activeIndex <
       (applyPreference "openai:gpt-4o-mini" true demoPool).providers.length ∧
     (onModelChange true 1 demoPool).activeIndex <
       (onModelChange true 1 demoPool).providers.length ∧
     (onModelConfirm true 1 demoPool).pool.activeIndex <
       (onModelConfirm true 1 demoPool).pool.providers.length) :=
  ⟨by decide, c5_active_index_valid "openai:gpt-4o-mini" true 1 demoPool (by decide)⟩

/-- C6 counterexample: the claim says selecting an out-of-range index
fails with `OutOfRange`, but `_on_model_confirm` at index 5 on the
concrete two-provider pool is a complete no-op: it leaves the pool (and
active index) untouched, sets no status text and saves no preference, so
no `OutOfRange` failure is ever raised or reported. -/
theorem c6_counterexample_silent_ignore :
    (onModelConfirm true 5 demoPool).pool = demoPool ∧
    (onModelConfirm true 5 demoPool).statusMsg = none ∧
    (onModelConfirm true 5 demoPool).savedPref = none := by
  decide

/-- C6 (amended): for every index outside the range of the provider
list, explicit selection never mutates the active provider index; it is
silently ignored, setting no status and saving no preference (no
`OutOfRange` error is raised). -/
theorem c6_out_of_range_never_mutates (hasT : Bool) (sel : Int)
    (p : ProviderPool) (h : sel < 0 ∨ (p.providers.length : Int) ≤ sel) :
    onModelConfirm hasT sel p = ⟨p, none, none⟩ := by
  rcases h with h | h <;>
  · simp only [onModelConfirm]
    split
    · rfl
    · split
      · next hcond =>
        obtain ⟨h1, h2⟩ := hcond
        omega
      · rfl

/-- Witness for the amended C6 at the combobox's no-selection index. -/
theorem c6_out_of_range_never_mutates_witness :
    ((-1 : Int) < 0 ∨ (demoPool.providers.length : Int) ≤ -1) ∧
    onModelConfirm true (-1) demoPool = ⟨demoPool, none, none⟩ :=
  ⟨Or.inl (by decide),
    c6_out_of_range_never_mutates true (-1) demoPool (Or.inl (by decide))⟩

/-- C7: a manual (user-selected) change of the active provider index
emits exactly one `SwitchEvent` carrying the old and new model labels
with reason `user-selected`, and no event is emitted when the selected
index equals the current index. -/
theorem c7_switch_event_on_manual_change (i : Nat) (p : ProviderPool)
    (h : i < p.providers.length) :
    (i ≠ p.activeIndex →
      (selectProvider i p).2 =
        [{ oldLabel := currentModel p,
           newLabel := currentModel { p with activeIndex := i },
           reason := SwitchReason.userSelected }] ∧
      (selectProvider i p).1.activeIndex = i) ∧
    (i = p.activeIndex → (selectProvider i p).2 = []) := by
  constructor
  · intro hne
    simp [selectProvider, h, hne]
  · intro he
    simp [selectProvider, h, he]

/-- Witness for C7 at the concrete two-provider pool, selecting the
second provider. -/
theorem c7_switch_event_on_manual_change_witness :
    1 < demoPool.providers.length ∧
    ((1 ≠ demoPool.activeIndex →
       (selectProvider 1 demoPool).2 =
         [{ oldLabel := currentModel demoPool,
            newLabel := currentModel { demoPool with activeIndex := 1 },
            reason := SwitchReason.userSelected }] ∧
       (selectProvider 1 demoPool).1.activeIndex = 1) ∧
     (1 = demoPool.activeIndex → (selectProvider 1 demoPool).2 = [])) :=
  ⟨by decide, c7_switch_event_on_manual_change 1 demoPool (by decide)⟩

/-- C9: at most one hotkey-triggered translation is in flight: if the
`is_translating` guard is set when `do_translate` is invoked, the
invocation returns immediately with no effect (no clipboard read, no
provider attempt, no state change); and whenever the guard was clear on
entry, it is reset to false on every exit path. -/
theorem c9_reentrancy_guard (clip : Option String) (attempt : Nat → Bool)
    (s : SvcState) :
    (s.isTranslating = true → doTranslate clip attempt s = (s, [], 0)) ∧
    (s.isTranslating = false →
      (doTranslate clip attempt s).1.isTranslating = false) := by
  constructor
  · intro h
    simp [doTranslate, h]
  · intro h
    simp [doTranslate, h]

/-- Witness for C9: with the guard set the invocation is a no-op, and
with the guard clear it ends with the guard reset. -/
theorem c9_reentrancy_guard_witness :
    ({ demoState with isTranslating := true } : SvcState).isTranslating = true ∧
    doTranslate none (fun _ => false) { demoState with isTranslating := true } =
      ({ demoState with isTranslating := true }, [], 0) ∧
    demoState.isTranslating = false ∧
    (doTranslate none (fun _ => false) demoState).1.isTranslating = false :=
  ⟨rfl,
   (c9_reentrancy_guard none (fun _ => false)
     { demoState with isTranslating := true }).1 rfl,
   rfl,
   (c9_reentrancy_guard none (fun _ => false) demoState).2 rfl⟩
